import Mathlib

/-!
Verification of the CasJobs client (`casjobs.py`): a shallow embedding of the
job-submission / polling / parsing operations, with theorems settling the
claims about its specification.

Conventions of the embedding:
* Python strings become `String` / `List Char`; Python `str.split('\n')`
  becomes `splitOnChar`; Python sequence indexing (with its negative-index
  wrap-around and its `IndexError`) becomes `pyIndex : List α → Int → Option α`.
* Network I/O is passed in explicitly: a function embedding an operation that
  issues HTTP requests takes the server's response (or a response oracle) as
  an argument and returns, besides its result, a trace of the requests it
  issued, so that "no request is issued" is a provable statement.
* Fallible Python code (raised exceptions) returns `Option` / `Except`.
-/

namespace CasJobs

/-- Python list/tuple indexing `xs[i]` for `i : Int`: a negative index wraps
around once (`xs[-1]` is the last element); an index out of range on either
side raises `IndexError`, modelled as `none`. -/
def pyIndex {α : Type} (xs : List α) (i : Int) : Option α :=
  let j : Int := if i < 0 then i + xs.length else i
  if j < 0 then none else xs.get? j.toNat

/-- `self.status_codes`, the fixed positional status-name table
(casjobs.py lines 63-64). -/
def status_codes : List String :=
  ["ready", "started", "canceling", "cancelled", "failed", "finished"]

/-- Python `text.split(c)` for a one-character separator `c`: splits at every
occurrence of `c`; adjacent separators and separators at either end produce
empty pieces, and the result is never empty. -/
def splitOnChar (c : Char) : List Char → List (List Char)
  | [] => [[]]
  | x :: xs =>
    let r := splitOnChar c xs
    if x = c then [] :: r else (x :: r.headI) :: r.tail

/-- Python `'\n'.join(pieces)`: the pieces interleaved with single
newlines. -/
def joinLines : List (List Char) → List Char
  | [] => []
  | [l] => l
  | l :: ls => l ++ '\n' :: joinLines ls

/-- The digits of a decimal numeral to its value; `none` unless the list is a
nonempty run of ASCII digits. -/
def digitsToNat : List Char → Option Nat
  | [] => none
  | [c] => if c.isDigit then some (c.toNat - '0'.toNat) else none
  | c :: cs =>
    if c.isDigit then
      (digitsToNat cs).map (fun n => (c.toNat - '0'.toNat) * 10 ^ cs.length + n)
    else none

/-- Characters stripped by Python `int()` before parsing (the ASCII part of
`str.strip`'s default whitespace). -/
def isPyWhitespace (c : Char) : Bool :=
  c = ' ' || c = '\t' || c = '\n' || c = '\r' || c = '\x0b' || c = '\x0c'

/-- Model of Python `int(s)` on a decimal string: strip surrounding
whitespace, allow one leading sign, then require a nonempty digit run;
anything else raises `ValueError` (`none`).  (The model omits `_` digit
grouping and non-ASCII digits, which never appear in CasJobs responses.) -/
def pyInt (s : String) : Option Int :=
  let t := ((s.data.dropWhile isPyWhitespace).reverse.dropWhile isPyWhitespace).reverse
  match t with
  | '+' :: ds => (digitsToNat ds).map Int.ofNat
  | '-' :: ds => (digitsToNat ds).map (fun n => -(Int.ofNat n))
  | ds => (digitsToNat ds).map Int.ofNat

/-- Model of Python `html.unescape` restricted to the five predefined XML
entities; it agrees with `html.unescape` on strings whose ampersands only
introduce these entities — in particular both are the identity on
ampersand-free strings, which is all the CasJobs claims exercise. -/
def unescapeAux : List Char → List Char
  | [] => []
  | '&' :: 'a' :: 'm' :: 'p' :: ';' :: rest => '&' :: unescapeAux rest
  | '&' :: 'l' :: 't' :: ';' :: rest => '<' :: unescapeAux rest
  | '&' :: 'g' :: 't' :: ';' :: rest => '>' :: unescapeAux rest
  | '&' :: 'q' :: 'u' :: 'o' :: 't' :: ';' :: rest => '"' :: unescapeAux rest
  | '&' :: '#' :: '3' :: '9' :: ';' :: rest => '\'' :: unescapeAux rest
  | c :: rest => c :: unescapeAux rest

/-- `unescape` as used by `_parse_error` (imported from Python's `html`
module); see `unescapeAux`. -/
def unescape (s : String) : String :=
  String.mk (unescapeAux s.data)

/-- The status-name lookup performed by `status` (casjobs.py line 222):
`self.status_codes[status]` under Python indexing, paired with the code, as
`status` returns `status, self.status_codes[status]`.  `none` is the
`IndexError` Python raises when the code is outside `[-6, 5]`. -/
def statusOf (code : Int) : Option (Int × String) :=
  (pyIndex status_codes code).map (fun name => (code, name))

/-- `monitor` (casjobs.py lines 251-257), with the server's successive
`GetJobStatus` answers supplied as the list of integer codes the XML bodies
parse to.  Each loop iteration probes once (consuming one code and looking its
name up in `status_codes`), returns if the code is in `[3, 4, 5]`, and
otherwise sleeps once and loops.  The value is the returned
`(code, name)` pair together with how many probes and how many sleeps were
issued; `none` covers both a `status()` that raises (unindexable code) and a
response list too short for the loop to return. -/
def monitorRun : List Int → Option ((Int × String) × Nat × Nat)
  | [] => none
  | c :: rest =>
    match statusOf c with
    | none => none
    | some st =>
      if c = 3 ∨ c = 4 ∨ c = 5 then some (st, 1, 0)
      else
        match monitorRun rest with
        | none => none
        | some (st', probes, sleeps) => some (st', probes + 1, sleeps + 1)

/-- The parameter dictionary `quick` sends to `ExecuteQuickJob`
(casjobs.py lines 171-174). -/
structure QuickParams where
  qry : String
  context : String
  taskname : String
  isSystem : Bool
  deriving DecidableEq, Repr

/-- The parameter dictionary `submit` sends to `SubmitJob`
(casjobs.py lines 197-200). -/
structure SubmitParams where
  qry : String
  context : String
  taskname : String
  estimate : Int
  deriving DecidableEq, Repr

/-- The `context` resolution shared by `quick` and `submit`:
`if not context: context = self.context`.  Python truthiness makes both the
absent argument (`None`) and the empty string fall back to the client's
configured default. -/
def resolveContext (selfContext : String) (context : Option String) : String :=
  match context with
  | none => selfContext
  | some c => if c = "" then selfContext else c

/-- The request `quick` builds (casjobs.py lines 171-174): query, resolved
context, task name and system flag. -/
def quick_params (selfContext : String) (q : String) (context : Option String)
    (task_name : String) (system : Bool) : QuickParams :=
  { qry := q, context := resolveContext selfContext context,
    taskname := task_name, isSystem := system }

/-- The request `submit` builds (casjobs.py lines 197-200): query, resolved
context, task name and time estimate. -/
def submit_params (selfContext : String) (q : String) (context : Option String)
    (task_name : String) (estimate : Int) : SubmitParams :=
  { qry := q, context := resolveContext selfContext context,
    taskname := task_name, estimate := estimate }

/-- Python string slicing `l[1:-1]`: the string without its first and last
characters (empty when the string has at most one character, as in Python). -/
def pySlice1ToM1 (l : String) : String :=
  (l.drop 1).dropRight 1

/-- The result-text post-processing of `list_tables` (casjobs.py line 403):
`[l[1:-1] for l in res.split('\n')[1:-1]]` — drop the header line and the
final (empty) piece of the split, and strip the first and last character of
each remaining line. -/
def list_tables_parse (res : String) : List String :=
  (((splitOnChar '\n' res.data).drop 1).dropLast).map
    (fun l => pySlice1ToM1 (String.mk l))

/-- The fixed query `list_tables` runs (casjobs.py line 399). -/
def list_tables_query : String :=
  "SELECT Distinct TABLE_NAME FROM information_schema.TABLES"

/-- `list_tables` (casjobs.py lines 391-403), with the quick-job execution
abstracted as an oracle from the query text to the result text. -/
def list_tables (quickFn : String → String) : List String :=
  list_tables_parse (quickFn list_tables_query)

/-- The query string `count` builds: `"SELECT COUNT(*) %s" % q`
(casjobs.py line 388). -/
def count_query (q : String) : String :=
  "SELECT COUNT(*) " ++ q

/-- `count` (casjobs.py lines 374-389), with the quick-job execution
abstracted as an oracle: run the prefixed query, take line index 1 of the
result split on newlines (`IndexError` → `none`), and parse it with
`int()`. -/
def count (quickFn : String → String) (q : String) : Option Int :=
  match (splitOnChar '\n' (quickFn (count_query q)).data).get? 1 with
  | none => none
  | some line => pyInt (String.mk line)

/-- A `minidom` DOM node: an element with a tag name and child nodes, or a
text node carrying character data.  Response bodies are given to the model
already parsed into this form (the XML text parser itself is Python stdlib,
outside this repository). -/
inductive XNode where
  | element (tagName : String) (childNodes : List XNode)
  | text (data : String)

mutual

/-- `minidom`'s `getElementsByTagName`: all descendant elements (the node
itself included when it is a matching element) with the given tag, in
document order. -/
def getElementsByTagName (tagname : String) : XNode → List XNode
  | .text _ => []
  | .element t cs =>
    (if t = tagname then [XNode.element t cs] else []) ++ getElementsInList tagname cs

/-- `getElementsByTagName` over a node list, preserving document order. -/
def getElementsInList (tagname : String) : List XNode → List XNode
  | [] => []
  | n :: ns => getElementsByTagName tagname n ++ getElementsInList tagname ns

end

/-- `minidom`'s `.firstChild`: the first child node, or `None` for a
childless node. -/
def firstChild : XNode → Option XNode
  | .element _ cs => cs.head?
  | .text _ => none

/-- How `_parse_single` can raise. -/
inductive ParseSingleError where
  | indexError      -- `[0]` on the empty element list: no element has the tag
  | attributeError  -- `.data` on `None` or on a non-text first child
  deriving DecidableEq, Repr

/-- `_parse_single` (casjobs.py lines 134-149):
`minidom.parseString(text).getElementsByTagName(tagname)[0].firstChild.data`,
on the parsed document.  `[0]` on an empty list raises `IndexError`; `.data`
on `None` (childless first element) or on an element node (whose class has no
`data` attribute) raises `AttributeError`. -/
def _parse_single (doc : XNode) (tagname : String) : Except ParseSingleError String :=
  match getElementsByTagName tagname doc with
  | [] => .error .indexError
  | e :: _ =>
    match firstChild e with
    | none => .error .attributeError
    | some (.text d) => .ok d
    | some (.element _ _) => .error .attributeError

/-- `pat` occurs in `cs` starting at index `i`. -/
def occursAt (pat cs : List Char) (i : Nat) : Bool :=
  pat.isPrefixOf (cs.drop i)

/-- The regex fragment `System.Exception:` (its `.` matches ANY character)
matches at index `i`: `System` at `i`, some character at `i + 6`,
`Exception:` at `i + 7`.  A successful match covers indices
`[i, i + 17)`. -/
def sysExcAt (cs : List Char) (i : Nat) : Bool :=
  occursAt "System".data cs i && decide (i + 6 < cs.length) &&
    occursAt "Exception:".data cs (i + 7)

/-- The literal `--->` matches at index `i`. -/
def arrowAt (cs : List Char) (i : Nat) : Bool :=
  occursAt "--->".data cs i

/-- Where `re.search` of `System.Exception: *(?P<msg>.*) *--->` (DOTALL)
first matches: the least `i` where `System.Exception:` matches and `--->`
occurs at some index `≥ i + 17` (with DOTALL, ` *(?P<msg>.*) *` places no
constraint on the characters in between, so the whole pattern matches at `i`
exactly when some arrow lies at or after the end of the literal prefix; no
arrow can hide inside the space run following the prefix since `--->` starts
with a dash). -/
def regexMatchStart (cs : List Char) : Option Nat :=
  (List.range (cs.length + 1)).find?
    (fun i => sysExcAt cs i &&
      (List.range (cs.length + 1)).any (fun p => decide (i + 17 ≤ p) && arrowAt cs p))

/-- The last index `≥ lo` where `--->` matches: where the greedy
`(?P<msg>.*)` (DOTALL) stops — it extends as far as possible while still
leaving ` *--->` matchable, and ` *` then matches the empty string. -/
def lastArrowFrom (cs : List Char) (lo : Nat) : Option Nat :=
  ((List.range (cs.length + 1)).filter (fun p => decide (lo ≤ p) && arrowAt cs p)).getLast?

/-- Length of the leading run of spaces: what the greedy ` *` right after
`System.Exception:` consumes (it never needs to backtrack, since `.*`
accepts anything). -/
def countLeadingSpaces (cs : List Char) : Nat :=
  (cs.takeWhile (fun c => c = ' ')).length

/-- The `msg` computed by `_parse_error` before entity decoding
(casjobs.py lines 126-131): if the regex
`System.Exception: *(?P<msg>.*) *--->` (DOTALL) matches, the span of the
greedy group `(?P<msg>.*)` — from past the space run after the leftmost
`System.Exception:` up to (excluding) the LAST `--->`, trailing spaces
included since the greedy group swallows them; otherwise the first
`maxlines` pieces of the newline-split text joined with newlines. -/
def parse_error_msg (text : String) (maxlines : Nat) : String :=
  let cs := text.data
  match regexMatchStart cs with
  | some i =>
    let s := i + 17 + countLeadingSpaces (cs.drop (i + 17))
    match lastArrowFrom cs s with
    | some q => String.mk ((cs.drop s).take (q - s))
    | none => String.mk (cs.drop s)   -- unreachable: a match guarantees an arrow at or after s
  | none =>
    String.mk (joinLines ((splitOnChar '\n' cs).take maxlines))

/-- `_parse_error` (casjobs.py lines 109-132): the extracted message with
HTML entities decoded.  The Python default `maxlines=2` is passed explicitly
by callers of the model. -/
def _parse_error (text : String) (maxlines : Nat) : String :=
  unescape (parse_error_msg text maxlines)

/-- A `requests.Response` as `_send_request` consumes it: the HTTP status
code and the body text; `none` models a response object without a usable
`text` attribute (the `hasattr(r, 'text')` guard). -/
structure Response where
  status_code : Nat
  text : Option String
  deriving DecidableEq, Repr

/-- The response handling of `_send_request` (casjobs.py lines 99-107), with
the HTTP exchange abstracted as the response it yielded: status 200 returns
the response; any other status raises — with the operation name, the status
code and the `_parse_error`-extracted message when a nonempty body is
present, or with a generic `(no additional information)` message otherwise.
Nothing is retried: the single response decides the call. -/
def _send_request (job_type : String) (r : Response) : Except String Response :=
  if r.status_code ≠ 200 then
    match r.text with
    | some t =>
      if t ≠ "" then
        .error (job_type ++ " failed with status: " ++ toString r.status_code ++ "\n" ++
          _parse_error t 2)
      else
        .error (job_type ++ " failed with status: " ++ toString r.status_code ++
          " (no additional information)")
    | none =>
      .error (job_type ++ " failed with status: " ++ toString r.status_code ++
        " (no additional information)")
  else
    .ok r

/-- The permitted extract-job output formats (casjobs.py line 293). -/
def job_types : List String :=
  ["CSV", "DataSet", "FITS", "VOTable"]

/-- `request_output` (casjobs.py lines 279-298), with the transport
abstracted as `send` from operation name and parameters to the parsed
response document (or a transport error).  The second component is the trace
of operations actually sent.  `assert outtype in job_types` runs before any
request is built or sent: an invalid format raises `AssertionError` with an
empty trace. -/
def request_output (table outtype : String)
    (send : String → List (String × String) → Except String XNode) :
    Except String Int × List String :=
  if outtype ∈ job_types then
    match send "SubmitExtractJob" [("tableName", table), ("type", outtype)] with
    | .error e => (.error e, ["SubmitExtractJob"])
    | .ok doc =>
      match _parse_single doc "long" with
      | .error _ => (.error "parse failure", ["SubmitExtractJob"])
      | .ok s =>
        match pyInt s with
        | none => (.error "ValueError", ["SubmitExtractJob"])
        | some n => (.ok n, ["SubmitExtractJob"])
  else
    (.error "AssertionError", [])

/-- How `get_output` can raise. -/
inductive GetOutputError where
  | jobFailure (msg : String)      -- the formatted not-finished Exception
  | indexError                     -- `status_codes[status]` out of range
  | downloadFailure (msg : String) -- non-200 on the file download
  deriving DecidableEq, Repr

/-- The fields of the fetched job record that `get_output` reads:
`int(job_info["Status"])` already parsed, and `job_info["OutputLoc"]`. -/
structure JobRecord where
  status : Int
  outputLoc : String
  deriving DecidableEq, Repr

/-- `get_output` (casjobs.py lines 300-335), given the job record its
`job_info` call fetched and with the file download abstracted as `fetch`
from URL to HTTP status and content bytes.  Besides the outcome it returns
the trace of URLs downloaded and the bytes written to the destination
(`none` when nothing is written).  A status other than 5 raises before any
download — the formatted message when `status_codes[status]` is indexable,
Python's `IndexError` otherwise. -/
def get_output (job_id : Int) (record : JobRecord)
    (fetch : String → Nat × List UInt8) :
    Except GetOutputError Unit × List String × Option (List UInt8) :=
  if record.status ≠ 5 then
    match pyIndex status_codes record.status with
    | none => (.error .indexError, [], none)
    | some name =>
      (.error (.jobFailure ("The status of job " ++ toString job_id ++ " is " ++
        toString record.status ++ " (" ++ name ++ ")")), [], none)
  else
    let fetched := fetch record.outputLoc
    if fetched.1 ≠ 200 then
      (.error (.downloadFailure ("Getting file " ++ record.outputLoc ++
        " yielded status: " ++ toString fetched.1)), [record.outputLoc], none)
    else
      (.ok (), [record.outputLoc], some fetched.2)

/-- A parsed response document with two `t` elements: the first has no text
child (its only child is the element `u`), the second has the text child
`x`. -/
def twoTagDoc : XNode :=
  XNode.element "r"
    [XNode.element "t" [XNode.element "u" []],
     XNode.element "t" [XNode.text "x"]]

/-! ### Shared lemmas -/

theorem splitOnChar_no_sep {c : Char} : ∀ {xs : List Char}, (∀ x ∈ xs, x ≠ c) →
    splitOnChar c xs = [xs]
  | [], _ => rfl
  | x :: xs, h => by
    have hx : x ≠ c := h x (List.mem_cons_self x xs)
    have ih := splitOnChar_no_sep (fun y hy => h y (List.mem_cons_of_mem x hy))
    simp [splitOnChar, ih, hx]

theorem splitOnChar_append {c : Char} : ∀ {a : List Char} (b : List Char),
    (∀ x ∈ a, x ≠ c) → splitOnChar c (a ++ c :: b) = a :: splitOnChar c b
  | [], b, _ => by simp [splitOnChar]
  | x :: a, b, h => by
    have hx : x ≠ c := h x (List.mem_cons_self x a)
    have ih := splitOnChar_append (a := a) b (fun y hy => h y (List.mem_cons_of_mem x hy))
    simp [splitOnChar, ih, hx]

theorem pyIndex_status_codes_isSome {i : Int} (hlo : -6 ≤ i) (hhi : i ≤ 5) :
    ∃ name, pyIndex status_codes i = some name := by
  interval_cases i <;> exact ⟨_, rfl⟩

/-! ### Claims -/

/-- C3: when the quick-job result text is the header line `TABLE_NAME`, the
quoted lines `"pisces2"` and `"mydb_table"`, and a trailing blank line,
`list_tables()` returns exactly `["pisces2", "mydb_table"]` — the header and
the trailing blank are stripped, and the surrounding quotes are removed from
each remaining line. -/
theorem list_tables_strips_header_footer_quotes_c3 :
    list_tables (fun _ => "TABLE_NAME\n\"pisces2\"\n\"mydb_table\"\n") =
      ["pisces2", "mydb_table"] ∧
    list_tables_parse "TABLE_NAME\n\"pisces2\"\n\"mydb_table\"\n" =
      ["pisces2", "mydb_table"] := by
  exact ⟨rfl, rfl⟩

/-- C9: `status` names a code by positional indexing into the six-entry
table: the code `-1` wraps to the last entry and yields `(-1, "finished")`,
while every code `≥ 6` raises `IndexError` (`none`) instead of returning a
name. -/
theorem status_positional_indexing_c9 :
    statusOf (-1) = some (-1, "finished") ∧
    ∀ c : Int, 6 ≤ c → statusOf c = none := by
  refine ⟨by decide, ?_⟩
  intro c hc
  have h0 : ¬ c < 0 := by omega
  have h6 : status_codes.length ≤ c.toNat := by
    simp only [status_codes, List.length]
    omega
  have hnone : status_codes.get? c.toNat = none := List.get?_eq_none.mpr h6
  simp [statusOf, pyIndex, h0, hnone]
  exact h6

/-- Witness for C9 at the concrete code 6. -/
theorem status_positional_indexing_c9_witness :
    statusOf (-1) = some (-1, "finished") ∧ statusOf 6 = none :=
  ⟨status_positional_indexing_c9.1,
   status_positional_indexing_c9.2 6 (by decide)⟩

/-- C10: for `quick` and `submit`, passing `""` as the context behaves
exactly like passing no context: the configured default is used, because
`if not context` treats the empty string like `None`; a nonempty context
overrides the default. -/
theorem empty_context_uses_default_c10 :
    ∀ (selfCtx q tn : String) (sys : Bool) (est : Int),
      quick_params selfCtx q (some "") tn sys = quick_params selfCtx q none tn sys ∧
      submit_params selfCtx q (some "") tn est = submit_params selfCtx q none tn est ∧
      (quick_params selfCtx q (some "") tn sys).context = selfCtx ∧
      (submit_params selfCtx q (some "") tn est).context = selfCtx ∧
      ∀ c : String, c ≠ "" →
        (quick_params selfCtx q (some c) tn sys).context = c ∧
        (submit_params selfCtx q (some c) tn est).context = c := by
  intro selfCtx q tn sys est
  refine ⟨rfl, rfl, rfl, rfl, ?_⟩
  intro c hc
  constructor <;> simp [quick_params, submit_params, resolveContext, hc]

/-- Witness for C10 at concrete arguments, with the nonempty override
`"MYDB"`. -/
theorem empty_context_uses_default_c10_witness :
    quick_params "DR7" "SELECT 1" (some "") "quickie" false =
      quick_params "DR7" "SELECT 1" none "quickie" false ∧
    (quick_params "DR7" "SELECT 1" (some "MYDB") "quickie" false).context = "MYDB" :=
  ⟨(empty_context_uses_default_c10 "DR7" "SELECT 1" "quickie" false 30).1,
   ((empty_context_uses_default_c10 "DR7" "SELECT 1" "quickie" false 30).2.2.2.2
     "MYDB" (by decide)).1⟩

/-- C8: `count(q)` runs the quick query `"SELECT COUNT(*) " ++ q` and
returns the integer parsed from line index 1 of the result; on the result
text `"Column\n42\n"` it returns 42. -/
theorem count_parses_second_line_c8 :
    (∀ q : String, count_query q = "SELECT COUNT(*) " ++ q) ∧
    ∀ (quickFn : String → String) (q : String),
      quickFn (count_query q) = "Column\n42\n" →
      count quickFn q = some 42 := by
  refine ⟨fun q => rfl, ?_⟩
  intro quickFn q h
  unfold count
  rw [h]
  rfl

/-- Witness for C8 with a constant quick-job oracle and the spec's query
fragment. -/
theorem count_parses_second_line_c8_witness :
    count (fun _ => "Column\n42\n") "FROM information_schema.TABLES" = some 42 :=
  count_parses_second_line_c8.2 (fun _ => "Column\n42\n")
    "FROM information_schema.TABLES" rfl

/-- C2: when the successive status probes answer a run of non-terminal
codes followed by a terminal code `c ∈ {3, 4, 5}`, `monitor` returns the
pair of `c` and its name after exactly one probe per answer up to and
including the terminal one, with one sleep between consecutive probes and
none after the terminal probe — any further prepared answers are never
requested.  In particular `[0, 1, 1, 5]` gives `(5, "finished")` after 4
probes and 3 sleeps. -/
theorem monitor_polls_until_terminal_c2
    (pre rest : List Int) (c : Int) (name : String)
    (hpre : ∀ x ∈ pre, (statusOf x).isSome = true ∧ ¬(x = 3 ∨ x = 4 ∨ x = 5))
    (hc : c = 3 ∨ c = 4 ∨ c = 5)
    (hname : statusOf c = some (c, name)) :
    monitorRun (pre ++ c :: rest) = some ((c, name), pre.length + 1, pre.length) := by
  induction pre with
  | nil =>
    simp [monitorRun, hname, hc]
  | cons x pre ih =>
    have hx := hpre x (List.mem_cons_self x pre)
    obtain ⟨stx, hstx⟩ := Option.isSome_iff_exists.mp hx.1
    have ih' := ih (fun y hy => hpre y (List.mem_cons_of_mem x hy))
    simp [monitorRun, hstx, hx.2, ih']

/-- Witness for C2 at the status-code sequence `[0, 1, 1, 5]`. -/
theorem monitor_polls_until_terminal_c2_witness :
    monitorRun [0, 1, 1, 5] = some ((5, "finished"), 4, 3) := by
  have h := monitor_polls_until_terminal_c2 [0, 1, 1] [] 5 "finished"
    (by decide) (by decide) (by decide)
  simpa using h

/-- C6: `request_output` with a format outside
`{CSV, DataSet, FITS, VOTable}` fails on the assertion before any request is
issued (empty request trace); with a format in the set, validation passes
and the `SubmitExtractJob` request is sent. -/
theorem request_output_validates_format_c6
    (table outtype : String)
    (send : String → List (String × String) → Except String XNode) :
    (outtype ∉ job_types →
      request_output table outtype send = (.error "AssertionError", [])) ∧
    (outtype ∈ job_types →
      (request_output table outtype send).2 = ["SubmitExtractJob"]) := by
  constructor
  · intro h
    simp [request_output, h]
  · intro h
    simp only [request_output, if_pos h]
    cases hs : send "SubmitExtractJob" [("tableName", table), ("type", outtype)] with
    | error e => rfl
    | ok doc =>
      cases hp : _parse_single doc "long" with
      | error e => simp [hp]
      | ok s =>
        cases hi : pyInt s with
        | none => simp [hp, hi]
        | some n => simp [hp, hi]

/-- Witness for C6: the invalid format `"XML"` and the valid format
`"CSV"`. -/
theorem request_output_validates_format_c6_witness :
    request_output "mytable" "XML" (fun _ _ => Except.error "down") =
      (.error "AssertionError", []) ∧
    (request_output "mytable" "CSV" (fun _ _ => Except.error "down")).2 =
      ["SubmitExtractJob"] :=
  ⟨(request_output_validates_format_c6 "mytable" "XML" _).1 (by decide),
   (request_output_validates_format_c6 "mytable" "CSV" _).2 (by decide)⟩

/-- C7: `_send_request` returns the response on HTTP 200; on any other
status it fails with a message carrying the operation name, the status code
and — when a nonempty body is present — the `_parse_error`-extracted
message, or a generic `(no additional information)` message when the body is
absent or empty.  The single response decides the call (no retry is
modelled or possible). -/
theorem send_request_response_handling_c7 (job_type : String) (r : Response) :
    (r.status_code = 200 → _send_request job_type r = .ok r) ∧
    (∀ t : String, r.status_code ≠ 200 → r.text = some t → t ≠ "" →
      _send_request job_type r =
        .error (job_type ++ " failed with status: " ++ toString r.status_code ++ "\n" ++
          _parse_error t 2)) ∧
    (r.status_code ≠ 200 → (r.text = none ∨ r.text = some "") →
      _send_request job_type r =
        .error (job_type ++ " failed with status: " ++ toString r.status_code ++
          " (no additional information)")) := by
  refine ⟨?_, ?_, ?_⟩
  · intro h
    simp [_send_request, h]
  · intro t hne htext ht
    simp [_send_request, hne, htext, ht]
  · intro hne htext
    rcases htext with h | h <;> simp [_send_request, hne, h]

/-- Witness for C7: a 200 response, a 500 response with a body, and a 404
response without one. -/
theorem send_request_response_handling_c7_witness :
    _send_request "GetJobs" ⟨200, some "ok"⟩ = .ok ⟨200, some "ok"⟩ ∧
    _send_request "GetJobs" ⟨500, some "oops\nrest\nmore"⟩ =
      .error "GetJobs failed with status: 500\noops\nrest" ∧
    _send_request "GetJobs" ⟨404, none⟩ =
      .error "GetJobs failed with status: 404 (no additional information)" := by
  refine ⟨?_, ?_, ?_⟩
  · exact (send_request_response_handling_c7 "GetJobs" ⟨200, some "ok"⟩).1 rfl
  · have h := (send_request_response_handling_c7 "GetJobs" ⟨500, some "oops\nrest\nmore"⟩).2.1
      "oops\nrest\nmore" (by decide) rfl (by decide)
    rw [h]
    rfl
  · exact (send_request_response_handling_c7 "GetJobs" ⟨404, none⟩).2.2 (by decide) (Or.inl rfl)

/-- C5 counterexample: `twoTagDoc` contains an element with tag `t` whose
text child is `x`, but `_parse_single` does not return `"x"`: it takes the
FIRST element with the tag regardless of its children, and raises
`AttributeError` because that element's first child is not a text node. -/
theorem parse_single_first_tag_c5_counterexample :
    getElementsByTagName "t" twoTagDoc =
      [XNode.element "t" [XNode.element "u" []],
       XNode.element "t" [XNode.text "x"]] ∧
    _parse_single twoTagDoc "t" = .error .attributeError :=
  ⟨rfl, rfl⟩

/-- C5 amended: `_parse_single` returns the data of the first child of the
FIRST element carrying the tag, provided that first child is a text node;
when no element carries the tag it raises (`IndexError`, the spec's
`MalformedResponseError`), with no default value. -/
theorem parse_single_first_tag_c5_amended (doc : XNode) (tag : String) :
    (∀ (t : String) (cs l : List XNode) (d : String),
      getElementsByTagName tag doc = XNode.element t (XNode.text d :: cs) :: l →
      _parse_single doc tag = .ok d) ∧
    (getElementsByTagName tag doc = [] →
      _parse_single doc tag = .error .indexError) := by
  constructor
  · intro t cs l d h
    simp [_parse_single, h, firstChild]
  · intro h
    simp [_parse_single, h]

/-- Witness for C5 at a scalar response document and at a document without
the tag. -/
theorem parse_single_first_tag_c5_witness :
    _parse_single (XNode.element "soap" [XNode.element "string" [XNode.text "hello"]])
      "string" = .ok "hello" ∧
    _parse_single (XNode.element "soap" []) "string" = .error .indexError :=
  ⟨(parse_single_first_tag_c5_amended
      (XNode.element "soap" [XNode.element "string" [XNode.text "hello"]]) "string").1
      "string" [] [] "hello" rfl,
   (parse_single_first_tag_c5_amended (XNode.element "soap" []) "string").2 rfl⟩

/-- C4 counterexample: on a record with status 6 (out of the table's range)
`get_output` raises Python's `IndexError` from `status_codes[status]`, not a
failure message carrying the job id and status — though still with no
download and no write. -/
theorem get_output_requires_finished_c4_counterexample :
    get_output 1 ⟨6, "http://static/file"⟩ (fun _ => (200, [])) =
      (.error .indexError, [], none) :=
  rfl

/-- C4 amended: for every record whose status is not 5 but is within the
range the positional table can index (`-6 ≤ status ≤ 5`), `get_output`
fails with the formatted job-failure message carrying the job id and the
status, downloads nothing and writes nothing; an out-of-range status
instead raises the table's `IndexError` (see the counterexample), still
with no download and no write. -/
theorem get_output_requires_finished_c4_amended
    (job_id : Int) (record : JobRecord) (fetch : String → Nat × List UInt8)
    (hne : record.status ≠ 5) (hlo : -6 ≤ record.status) (hhi : record.status ≤ 5) :
    get_output job_id record fetch =
      (.error (.jobFailure ("The status of job " ++ toString job_id ++ " is " ++
        toString record.status ++ " (" ++
        (pyIndex status_codes record.status).getD "" ++ ")")), [], none) := by
  obtain ⟨name, hname⟩ := pyIndex_status_codes_isSome hlo hhi
  simp [get_output, hne, hname]

/-- Witness for C4 at a failed (status 4) job record. -/
theorem get_output_requires_finished_c4_witness :
    get_output 2 ⟨4, "http://static/file"⟩ (fun _ => (200, [])) =
      (.error (.jobFailure "The status of job 2 is 4 (failed)"), [], none) := by
  have h := get_output_requires_finished_c4_amended 2 ⟨4, "http://static/file"⟩
    (fun _ => (200, [])) (by decide) (by decide) (by decide)
  rw [h]
  rfl

/-- C1 counterexample: on the spec's example text the extracted message is
NOT `"Syntax error near 'SELECT'"` — the greedy capture group keeps the
space standing before `--->`. -/
theorem parse_error_extraction_c1_counterexample :
    _parse_error "System.Exception: Syntax error near 'SELECT' --->\n...trace..." 2 ≠
      "Syntax error near 'SELECT'" ∧
    _parse_error "System.Exception: Syntax error near 'SELECT' --->\n...trace..." 2 =
      "Syntax error near 'SELECT' " := by
  have h : _parse_error "System.Exception: Syntax error near 'SELECT' --->\n...trace..." 2 =
      "Syntax error near 'SELECT' " := rfl
  exact ⟨by rw [h]; decide, h⟩

/-- C1 amended: on the spec's example text `_parse_error` returns
`"Syntax error near 'SELECT' "` — the captured message retains the space
preceding `--->`, because the greedy `(?P<msg>.*)` absorbs it and the
trailing ` *` of the pattern matches the empty string; and on any two-line
text the pattern does not match, it returns the two lines joined by a
newline with HTML entities decoded. -/
theorem parse_error_extraction_c1_amended :
    (_parse_error "System.Exception: Syntax error near 'SELECT' --->\n...trace..." 2 =
      "Syntax error near 'SELECT' ") ∧
    ∀ a b : String, (∀ ch ∈ a.data, ch ≠ '\n') → (∀ ch ∈ b.data, ch ≠ '\n') →
      regexMatchStart (a ++ "\n" ++ b).data = none →
      _parse_error (a ++ "\n" ++ b) 2 = unescape (a ++ "\n" ++ b) := by
  refine ⟨rfl, ?_⟩
  intro a b ha hb hm
  simp only [_parse_error, parse_error_msg, hm]
  have hdata : (a ++ "\n" ++ b).data = a.data ++ '\n' :: b.data := by
    simp [String.data_append]
  rw [hdata, splitOnChar_append b.data ha, splitOnChar_no_sep hb]
  have hjoin : joinLines (List.take 2 [a.data, b.data]) = a.data ++ '\n' :: b.data := rfl
  rw [hjoin, ← hdata]

/-- Witness for C1: the spec's example text and a pattern-free two-line
text. -/
theorem parse_error_extraction_c1_witness :
    _parse_error "System.Exception: Syntax error near 'SELECT' --->\n...trace..." 2 =
      "Syntax error near 'SELECT' " ∧
    _parse_error "line one\nline two" 2 = unescape "line one\nline two" := by
  refine ⟨parse_error_extraction_c1_amended.1, ?_⟩
  exact parse_error_extraction_c1_amended.2 "line one" "line two"
    (by decide) (by decide) (by rfl)

end CasJobs
